import Mathlib

/-!
Verification of the commit-habit gist updater.

Shallow embedding of the repository's three script variants:

* `src/script/update_gist.js` — fetches one page of public events and counts
  `PushEvent` commits via `event.payload?.commits || []`.
* `src/unnamed/part_000` — fetches up to 3 pages of events; derives a commit
  count per `PushEvent` with the fallback chain
  `commits.length > 0 ? commits.length : (size || distinct_size || 1)`.
* `src/unnamed/part_001` — two concatenated search-based variants: up to 10
  pages of commit-search results, each record counting exactly 1.

All variants share the hour-of-day bucketing (morning/daytime/evening/night)
and the markdown renderer (`getPercent`, `getBar`, column layout).

Numeric modelling: JavaScript numbers are idealised as exact rationals `ℚ`;
`Math.round x` is `⌊x + 1/2⌋` (its semantics for the non-negative values
occurring here), `toFixed(1)` rounds to the nearest tenth the same way.
`String.prototype.repeat` throws a `RangeError` on a negative count, which is
modelled by `Option`; division is likewise guarded (`jsDiv`) so that the
`NaN`-producing division by zero surfaces as `none`.  Timezone conversion
(`utcToZonedTime` / `dayjs.tz`) is an external collaborator; an event record
carries the already-converted local (Beijing) hour of day.
-/

/-- The four time-of-day buckets used by every variant. -/
inductive Bucket where
  | morning
  | daytime
  | evening
  | night
deriving DecidableEq, Repr

/-- The `stats` accumulator: four bucket counters plus the running total
(`src/script/update_gist.js` lines 27–33 and the analogous literals in the
other variants). -/
structure CommitStats where
  morning : Nat
  daytime : Nat
  evening : Nat
  night : Nat
  total : Nat
deriving DecidableEq, Repr

/-- The zero-valued accumulator each run starts from. -/
def initStats : CommitStats :=
  { morning := 0, daytime := 0, evening := 0, night := 0, total := 0 }

/-- The hour-to-bucket classification shared by all variants, transcribing the
`if (hour >= 6 && hour < 12) … else if … else` chain
(e.g. `src/script/update_gist.js` lines 47–55). -/
def bucketOfHour (hour : Nat) : Bucket :=
  if 6 ≤ hour ∧ hour < 12 then Bucket.morning
  else if 12 ≤ hour ∧ hour < 18 then Bucket.daytime
  else if 18 ≤ hour ∧ hour < 24 then Bucket.evening
  else Bucket.night

/-- Add `c` commits observed at local hour `hour` to the accumulator: the
body of the per-event branch (`stats.total += commitCount` followed by the
hour chain incrementing exactly one bucket). -/
def bumpStats (s : CommitStats) (hour : Nat) (c : Nat) : CommitStats :=
  let s' := { s with total := s.total + c }
  if 6 ≤ hour ∧ hour < 12 then { s' with morning := s'.morning + c }
  else if 12 ≤ hour ∧ hour < 18 then { s' with daytime := s'.daytime + c }
  else if 18 ≤ hour ∧ hour < 24 then { s' with evening := s'.evening + c }
  else { s' with night := s'.night + c }

/-- A `PushEvent` payload as the scripts consume it: an optional array of
commit objects (only its length is read) and the optional numeric fields
`size` and `distinct_size`. -/
structure PushPayload where
  commits : Option (List Unit)
  size : Option Nat
  distinct_size : Option Nat
deriving DecidableEq, Repr

/-- An activity record as consumed by the event-based collectors: its `type`
string, its payload (absent models JS `undefined`), and the Beijing-local
hour of its `created_at` instant (timezone conversion is external). -/
structure Event where
  type : String
  payload : Option PushPayload
  localHour : Nat
deriving DecidableEq, Repr

/-- JS `a || b` on an optional number: `undefined` and `0` are falsy. -/
def falsyOr (o : Option Nat) (d : Nat) : Nat :=
  match o with
  | some n => if n = 0 then d else n
  | none => d

/-- Commit count per `PushEvent` in `src/script/update_gist.js` lines 37–38:
`(event.payload?.commits || []).length` — no fallback, an absent list counts
as empty. -/
def commitCountSimple (payload : Option PushPayload) : Nat :=
  ((payload.bind PushPayload.commits).getD []).length

/-- Commit count per `PushEvent` in `src/unnamed/part_000` lines 60–63:
`Array.isArray(payload.commits) && payload.commits.length > 0
  ? payload.commits.length : (payload.size || payload.distinct_size || 1)`. -/
def commitCountFallback (payload : Option PushPayload) : Nat :=
  let p := payload.getD { commits := none, size := none, distinct_size := none }
  match p.commits with
  | some cs =>
      if 0 < cs.length then cs.length
      else falsyOr p.size (falsyOr p.distinct_size 1)
  | none => falsyOr p.size (falsyOr p.distinct_size 1)

/-- Per-event step of the collectors: only `PushEvent` records contribute,
with the commit count extracted by `cc` (the variant-specific rule). -/
def processEvent (cc : Option PushPayload → Nat) (s : CommitStats) (e : Event) :
    CommitStats :=
  if e.type = "PushEvent" then bumpStats s e.localHour (cc e.payload) else s

/-- `getCommitTimes` of `src/script/update_gist.js`: a single fetched page of
events folded into the zero accumulator. -/
def getCommitTimesSimple (events : List Event) : CommitStats :=
  events.foldl (processEvent commitCountSimple) initStats

/-- The page loop of `getCommitTimes` in `src/unnamed/part_000` lines 38–81:
`fetch page`, break when the page is empty, otherwise fold its events and
continue.  `fetch` abstracts the paginated API; the result pairs the final
accumulator with the number of pages fetched.  Recursion is on the number of
remaining page slots (`fuel`), mirroring the bounded `for` loop. -/
def pagesLoop (fetch : Nat → List Event) :
    Nat → Nat → CommitStats → CommitStats × Nat
  | 0, _, s => (s, 0)
  | fuel + 1, page, s =>
    let events := fetch page
    if events.length = 0 then (s, 1)
    else
      let s' := events.foldl (processEvent commitCountFallback) s
      let r := pagesLoop fetch fuel (page + 1) s'
      (r.1, r.2 + 1)

/-- `getCommitTimes` of `src/unnamed/part_000`: up to 3 pages starting at
page 1 from the zero accumulator; also reports how many pages were fetched. -/
def getCommitTimesPaged (fetch : Nat → List Event) : CommitStats × Nat :=
  pagesLoop fetch 3 1 initStats

/-- The four bucket counters of the first variant in `src/unnamed/part_001`
(lines 36–41), which keeps no running `total` field. -/
structure BucketStats where
  morning : Nat
  daytime : Nat
  evening : Nat
  night : Nat
deriving DecidableEq, Repr

/-- A commit-search result record: only the Beijing-local hour of its
`commit.author.date` is consumed. -/
structure SearchItem where
  localHour : Nat
deriving DecidableEq, Repr

/-- Per-item step of the search collector (`src/unnamed/part_001` lines
67–77): classify the hour and increment exactly one bucket by 1. -/
def bumpBucket (s : BucketStats) (hour : Nat) : BucketStats :=
  if 6 ≤ hour ∧ hour < 12 then { s with morning := s.morning + 1 }
  else if 12 ≤ hour ∧ hour < 18 then { s with daytime := s.daytime + 1 }
  else if 18 ≤ hour ∧ hour < 24 then { s with evening := s.evening + 1 }
  else { s with night := s.night + 1 }

/-- The page loop of `getCommitTimes` in `src/unnamed/part_001` lines 47–81:
break when a page is empty, fold its items, and break again when the batch is
smaller than `PER_PAGE = 100`. -/
def searchLoop (fetch : Nat → List SearchItem) :
    Nat → Nat → BucketStats → BucketStats × Nat
  | 0, _, s => (s, 0)
  | fuel + 1, page, s =>
    let items := fetch page
    if items.length = 0 then (s, 1)
    else
      let s' := items.foldl (fun acc it => bumpBucket acc it.localHour) s
      if items.length < 100 then (s', 1)
      else
        let r := searchLoop fetch fuel (page + 1) s'
        (r.1, r.2 + 1)

/-- `getCommitTimes` of the first variant of `src/unnamed/part_001`: up to
`MAX_PAGES = 10` pages, and `total` computed as the bucket sum at the end
(lines 83–88). -/
def getCommitTimesSearch (fetch : Nat → List SearchItem) : CommitStats × Nat :=
  let r := searchLoop fetch 10 1 ⟨0, 0, 0, 0⟩
  ({ morning := r.1.morning, daytime := r.1.daytime, evening := r.1.evening,
     night := r.1.night,
     total := r.1.morning + r.1.daytime + r.1.evening + r.1.night }, r.2)

/-! ## Renderer numerics -/

/-- JS `Math.round` for the non-negative arguments occurring here:
round half up. -/
def jsRound (x : ℚ) : ℤ := ⌊x + 1 / 2⌋

/-- Guarded division: JS `a / 0` yields `NaN` (for the operands occurring
here), modelled as `none` so that `NaN`-poisoning of downstream arithmetic is
visible. -/
def jsDiv (a b : ℚ) : Option ℚ := if b = 0 then none else some (a / b)

/-- Numeric value of JS `x.toFixed(1)` for non-negative `x`: `x` rounded to
the nearest tenth. -/
def toFixed1 (x : ℚ) : ℚ := (jsRound (x * 10) : ℚ) / 10

/-- Decimal rendering of JS `x.toFixed(1)` for non-negative `x`: the integer
part, a dot, and exactly one fractional digit. -/
def toFixed1Str (x : ℚ) : String :=
  let n : Nat := (jsRound (x * 10)).toNat
  Nat.repr (n / 10) ++ "." ++ Nat.repr (n % 10)

/-- `getPercent` of `src/script/update_gist.js` line 70 (also
`src/unnamed/part_000` line 104), as a numeric value:
`stats.total === 0 ? 0 : ((num / stats.total) * 100).toFixed(1)`. -/
def getPercentGist (s : CommitStats) (num : Nat) : Option ℚ :=
  if s.total = 0 then some 0
  else (jsDiv (num : ℚ) (s.total : ℚ)).map (fun r => toFixed1 (r * 100))

/-- `getPercent` of the first variant of `src/unnamed/part_001` line 92, as a
numeric value: `(stats.total === 0 ? 0 : (num / stats.total) * 100).toFixed(1)`
— note `toFixed` applies to both branches of the conditional. -/
def getPercentSearch (s : CommitStats) (num : Nat) : Option ℚ :=
  (if s.total = 0 then some 0 else jsDiv (num : ℚ) (s.total : ℚ)).map
    (fun r => toFixed1 (r * 100))

/-- String rendered for the percent column by `src/script/update_gist.js` /
`src/unnamed/part_000`: the bare number `0` when the total is zero
(interpolated as `"0"`), otherwise the `toFixed(1)` string. -/
def getPercentStrGist (s : CommitStats) (num : Nat) : String :=
  if s.total = 0 then "0"
  else toFixed1Str ((num : ℚ) / (s.total : ℚ) * 100)

/-- String produced by the first variant of `src/unnamed/part_001`: the
`toFixed(1)` rendering of either branch, so the zero-total case reads
`"0.0"`. -/
def getPercentStrSearch (s : CommitStats) (num : Nat) : String :=
  toFixed1Str (if s.total = 0 then 0 else (num : ℚ) / (s.total : ℚ) * 100)

/-- JS `String.prototype.repeat`: throws `RangeError` on a negative count,
modelled as `none`. -/
def jsRepeat (c : Char) (n : ℤ) : Option String :=
  if n < 0 then none else some (String.mk (List.replicate n.toNat c))

/-- `getBar` of the first variant of `src/unnamed/part_001` lines 93–96:
`filled = Math.round((percent / 100) * BAR_WIDTH)` with `BAR_WIDTH = 20`,
then `'█'.repeat(filled) + '░'.repeat(BAR_WIDTH - filled)`. -/
def getBar (percent : ℚ) : Option String :=
  let filled := jsRound (percent / 100 * 20)
  (jsRepeat '█' filled).bind (fun a =>
    (jsRepeat '░' (20 - filled)).map (fun b => a ++ b))

/-- `getBar` of `src/script/update_gist.js` lines 71–74 (also
`src/unnamed/part_000`): `filled = Math.round(percent / 5)`. -/
def getBarGist (percent : ℚ) : Option String :=
  let filled := jsRound (percent / 5)
  (jsRepeat '█' filled).bind (fun a =>
    (jsRepeat '░' (20 - filled)).map (fun b => a ++ b))

/-! ## Renderer text layer (first variant of `src/unnamed/part_001`) -/

/-- JS `String.prototype.padEnd` with the default space filler. -/
def padEnd (s : String) (w : Nat) : String :=
  s ++ String.mk (List.replicate (w - s.length) ' ')

/-- JS `String.prototype.padStart` with the default space filler. -/
def padStart (s : String) (w : Nat) : String :=
  String.mk (List.replicate (w - s.length) ' ') ++ s

/-- `countWidth` of `src/unnamed/part_001` line 107:
`Math.max(3, ...lines.map(l => String(l.count).length))`. -/
def countWidth (s : CommitStats) : Nat :=
  max 3 (max (max (Nat.repr s.morning).length (Nat.repr s.daytime).length)
    (max (Nat.repr s.evening).length (Nat.repr s.night).length))

/-- One content line of `generateMarkdown` (`src/unnamed/part_001` lines
110–116): emoji + padded label, right-justified count + `" commits"`, and the
bar, joined by three spaces.  The percent string is coerced back to a number
by `getBar`, hence `getPercentSearch`. -/
def renderLine (s : CommitStats) (emoji label : String) (count : Nat) :
    Option String :=
  (getPercentSearch s count).bind fun percent =>
    (getBar percent).map fun bar =>
      emoji ++ " " ++ padEnd label 7 ++ "   " ++
        padStart (Nat.repr count) (countWidth s) ++ " commits" ++ "   " ++ bar

/-- `generateMarkdown` of the first variant of `src/unnamed/part_001` (lines
91–122) as a function of the stats and the already-formatted Beijing
timestamp string (`dayjs().tz(TIME_ZONE).format(...)` is an external
collaborator): the four content lines joined by newlines, then the
`> Last Updated:` trailer. -/
def generateMarkdown (s : CommitStats) (updateTime : String) : Option String :=
  (renderLine s "🌞" "Morning" s.morning).bind fun l1 =>
    (renderLine s "🏙️" "Daytime" s.daytime).bind fun l2 =>
      (renderLine s "🌆" "Evening" s.evening).bind fun l3 =>
        (renderLine s "🌙" "Night" s.night).map fun l4 =>
          String.intercalate "\n" [l1, l2, l3, l4] ++
            "\n> Last Updated: " ++ updateTime ++ "\n"

/-! ## Helper lemmas -/

/-- Bucket-indexed view of the four counters. -/
def bucketCount (s : CommitStats) : Bucket → Nat
  | Bucket.morning => s.morning
  | Bucket.daytime => s.daytime
  | Bucket.evening => s.evening
  | Bucket.night => s.night

/-- The collection invariant: the running total is the bucket sum. -/
def sumInv (s : CommitStats) : Prop :=
  s.total = s.morning + s.daytime + s.evening + s.night

lemma bumpStats_sumInv {s : CommitStats} (hour c : Nat) (hs : sumInv s) :
    sumInv (bumpStats s hour c) := by
  simp only [sumInv, bumpStats] at *
  split_ifs <;> simp <;> omega

lemma processEvent_sumInv (cc : Option PushPayload → Nat) {s : CommitStats}
    (e : Event) (hs : sumInv s) : sumInv (processEvent cc s e) := by
  unfold processEvent
  split_ifs
  · exact bumpStats_sumInv _ _ hs
  · exact hs

lemma foldl_processEvent_sumInv (cc : Option PushPayload → Nat)
    (events : List Event) :
    ∀ s : CommitStats, sumInv s → sumInv (events.foldl (processEvent cc) s) := by
  induction events with
  | nil => intro s hs; exact hs
  | cons e tl ih => intro s hs; exact ih _ (processEvent_sumInv cc e hs)

lemma initStats_sumInv : sumInv initStats := by simp [sumInv, initStats]

lemma pagesLoop_sumInv (fetch : Nat → List Event) :
    ∀ (fuel page : Nat) (s : CommitStats), sumInv s →
      sumInv (pagesLoop fetch fuel page s).1 := by
  intro fuel
  induction fuel with
  | zero => intro page s hs; exact hs
  | succ n ih =>
    intro page s hs
    simp only [pagesLoop]
    split_ifs
    · exact hs
    · exact ih _ _ (foldl_processEvent_sumInv _ _ _ hs)

lemma pagesLoop_pages_le (fetch : Nat → List Event) :
    ∀ (fuel page : Nat) (s : CommitStats),
      (pagesLoop fetch fuel page s).2 ≤ fuel := by
  intro fuel
  induction fuel with
  | zero => intro page s; simp [pagesLoop]
  | succ n ih =>
    intro page s
    simp only [pagesLoop]
    split_ifs
    · omega
    · have := ih (page + 1) ((fetch page).foldl (processEvent commitCountFallback) s)
      omega

lemma pagesLoop_pages_pos (fetch : Nat → List Event) (fuel page : Nat)
    (s : CommitStats) (hf : 1 ≤ fuel) :
    1 ≤ (pagesLoop fetch fuel page s).2 := by
  obtain ⟨n, rfl⟩ : ∃ n, fuel = n + 1 := ⟨fuel - 1, by omega⟩
  simp only [pagesLoop]
  split_ifs <;> omega

lemma pagesLoop_full_before (fetch : Nat → List Event) :
    ∀ (fuel page : Nat) (s : CommitStats) (j : Nat),
      j + 1 < (pagesLoop fetch fuel page s).2 → fetch (page + j) ≠ [] := by
  intro fuel
  induction fuel with
  | zero => intro page s j hj; simp [pagesLoop] at hj
  | succ n ih =>
    intro page s j hj
    simp only [pagesLoop] at hj
    split_ifs at hj with hemp
    · omega
    · match j with
      | 0 =>
        rw [Nat.add_zero]
        intro hcon
        exact hemp (by rw [hcon]; rfl)
      | j' + 1 =>
        have := ih (page + 1) ((fetch page).foldl (processEvent commitCountFallback) s) j'
          (by omega)
        have harith : page + 1 + j' = page + (j' + 1) := by omega
        rwa [harith] at this

lemma pagesLoop_stops_at_empty (fetch : Nat → List Event) :
    ∀ (fuel page : Nat) (s : CommitStats),
      (pagesLoop fetch fuel page s).2 < fuel →
        fetch (page + ((pagesLoop fetch fuel page s).2 - 1)) = [] := by
  intro fuel
  induction fuel with
  | zero => intro page s h; simp [pagesLoop] at h
  | succ n ih =>
    intro page s h
    simp only [pagesLoop] at h ⊢
    split_ifs at h ⊢ with hemp
    · simpa using List.eq_nil_of_length_eq_zero hemp
    · have hn : 1 ≤ n := by
        have := pagesLoop_pages_le fetch n (page + 1)
          ((fetch page).foldl (processEvent commitCountFallback) s)
        omega
      have hlt :
          (pagesLoop fetch n (page + 1)
            ((fetch page).foldl (processEvent commitCountFallback) s)).2 < n := by
        omega
      have := ih (page + 1) ((fetch page).foldl (processEvent commitCountFallback) s) hlt
      have hpos := pagesLoop_pages_pos fetch n (page + 1)
        ((fetch page).foldl (processEvent commitCountFallback) s) hn
      have harith : page + 1 +
          ((pagesLoop fetch n (page + 1)
            ((fetch page).foldl (processEvent commitCountFallback) s)).2 - 1) =
          page + ((pagesLoop fetch n (page + 1)
            ((fetch page).foldl (processEvent commitCountFallback) s)).2 + 1 - 1) := by
        omega
      rwa [harith] at this

lemma searchLoop_pages_le (fetch : Nat → List SearchItem) :
    ∀ (fuel page : Nat) (s : BucketStats),
      (searchLoop fetch fuel page s).2 ≤ fuel := by
  intro fuel
  induction fuel with
  | zero => intro page s; simp [searchLoop]
  | succ n ih =>
    intro page s
    simp only [searchLoop]
    split_ifs
    · omega
    · omega
    · have := ih (page + 1)
        ((fetch page).foldl (fun acc it => bumpBucket acc it.localHour) s)
      omega

lemma searchLoop_pages_pos (fetch : Nat → List SearchItem) (fuel page : Nat)
    (s : BucketStats) (hf : 1 ≤ fuel) :
    1 ≤ (searchLoop fetch fuel page s).2 := by
  obtain ⟨n, rfl⟩ : ∃ n, fuel = n + 1 := ⟨fuel - 1, by omega⟩
  simp only [searchLoop]
  split_ifs <;> omega

lemma searchLoop_full_before (fetch : Nat → List SearchItem) :
    ∀ (fuel page : Nat) (s : BucketStats) (j : Nat),
      j + 1 < (searchLoop fetch fuel page s).2 →
        100 ≤ (fetch (page + j)).length := by
  intro fuel
  induction fuel with
  | zero => intro page s j hj; simp [searchLoop] at hj
  | succ n ih =>
    intro page s j hj
    simp only [searchLoop] at hj
    split_ifs at hj with hemp hshort
    · omega
    · omega
    · match j with
      | 0 => rw [Nat.add_zero]; omega
      | j' + 1 =>
        have := ih (page + 1)
          ((fetch page).foldl (fun acc it => bumpBucket acc it.localHour) s) j'
          (by omega)
        have harith : page + 1 + j' = page + (j' + 1) := by omega
        rwa [harith] at this

lemma searchLoop_stops_at_short (fetch : Nat → List SearchItem) :
    ∀ (fuel page : Nat) (s : BucketStats),
      (searchLoop fetch fuel page s).2 < fuel →
        (fetch (page + ((searchLoop fetch fuel page s).2 - 1))).length < 100 := by
  intro fuel
  induction fuel with
  | zero => intro page s h; simp [searchLoop] at h
  | succ n ih =>
    intro page s h
    simp only [searchLoop] at h ⊢
    split_ifs at h ⊢ with hemp hshort
    · simpa using by omega
    · simpa using hshort
    · have hn : 1 ≤ n := by
        have := searchLoop_pages_le fetch n (page + 1)
          ((fetch page).foldl (fun acc it => bumpBucket acc it.localHour) s)
        omega
      have hlt :
          (searchLoop fetch n (page + 1)
            ((fetch page).foldl (fun acc it => bumpBucket acc it.localHour) s)).2 < n := by
        omega
      have := ih (page + 1)
        ((fetch page).foldl (fun acc it => bumpBucket acc it.localHour) s) hlt
      have hpos := searchLoop_pages_pos fetch n (page + 1)
        ((fetch page).foldl (fun acc it => bumpBucket acc it.localHour) s) hn
      have harith : page + 1 +
          ((searchLoop fetch n (page + 1)
            ((fetch page).foldl (fun acc it => bumpBucket acc it.localHour) s)).2 - 1) =
          page + ((searchLoop fetch n (page + 1)
            ((fetch page).foldl (fun acc it => bumpBucket acc it.localHour) s)).2 + 1 - 1) := by
        omega
      rwa [harith] at this

lemma jsRound_intCast (n : ℤ) : jsRound (n : ℚ) = n := by
  have h : ⌊(1 : ℚ) / 2⌋ = 0 := by norm_num
  unfold jsRound
  rw [Int.floor_int_add, h, Int.add_zero]

lemma jsRound_mono {x y : ℚ} (h : x ≤ y) : jsRound x ≤ jsRound y :=
  Int.floor_mono (by linarith)

lemma jsRound_bounds {x : ℚ} {a b : ℤ} (h1 : (a : ℚ) ≤ x) (h2 : x ≤ (b : ℚ)) :
    a ≤ jsRound x ∧ jsRound x ≤ b := by
  constructor
  · calc a = jsRound (a : ℚ) := (jsRound_intCast a).symm
      _ ≤ jsRound x := jsRound_mono h1
  · calc jsRound x ≤ jsRound (b : ℚ) := jsRound_mono h2
      _ = b := jsRound_intCast b

lemma jsRound_close (x : ℚ) : |((jsRound x : ℤ) : ℚ) - x| ≤ 1 / 2 := by
  have h1 : ((⌊x + 1 / 2⌋ : ℤ) : ℚ) ≤ x + 1 / 2 := Int.floor_le _
  have h2 : x + 1 / 2 - 1 < ((⌊x + 1 / 2⌋ : ℤ) : ℚ) := Int.sub_one_lt_floor _
  rw [abs_le]
  constructor <;> simp only [jsRound] <;> linarith

lemma toFixed1_bounds {x : ℚ} (h0 : 0 ≤ x) (h1 : x ≤ 100) :
    0 ≤ toFixed1 x ∧ toFixed1 x ≤ 100 := by
  have hb : (0 : ℤ) ≤ jsRound (x * 10) ∧ jsRound (x * 10) ≤ 1000 :=
    jsRound_bounds (by push_cast; linarith) (by push_cast; linarith)
  unfold toFixed1
  constructor
  · have : (0 : ℚ) ≤ (jsRound (x * 10) : ℚ) := by exact_mod_cast hb.1
    linarith
  · have : ((jsRound (x * 10) : ℤ) : ℚ) ≤ 1000 := by exact_mod_cast hb.2
    linarith

lemma string_mk_append (a b : List Char) :
    String.mk a ++ String.mk b = String.mk (a ++ b) := rfl

lemma string_mk_length (a : List Char) : (String.mk a).length = a.length := rfl

/-- Closed-form evaluation of `getBar` on an in-range percent. -/
lemma getBar_eval {p : ℚ} (h0 : 0 ≤ p) (h1 : p ≤ 100) :
    getBar p =
      some (String.mk (List.replicate (jsRound (p / 100 * 20)).toNat '█' ++
        List.replicate (20 - (jsRound (p / 100 * 20)).toNat) '░')) ∧
      (jsRound (p / 100 * 20)).toNat ≤ 20 := by
  have hb : (0 : ℤ) ≤ jsRound (p / 100 * 20) ∧ jsRound (p / 100 * 20) ≤ 20 :=
    jsRound_bounds (by push_cast; linarith) (by push_cast; linarith)
  have htn : (jsRound (p / 100 * 20)).toNat ≤ 20 := by omega
  have hneg1 : ¬ jsRound (p / 100 * 20) < 0 := by omega
  have hneg2 : ¬ (20 : ℤ) - jsRound (p / 100 * 20) < 0 := by omega
  have harg : ((20 : ℤ) - jsRound (p / 100 * 20)).toNat =
      20 - (jsRound (p / 100 * 20)).toNat := by omega
  refine ⟨?_, htn⟩
  simp only [getBar, jsRepeat]
  rw [if_neg hneg1, if_neg hneg2]
  show some (String.mk (List.replicate (jsRound (p / 100 * 20)).toNat '█') ++
    String.mk (List.replicate ((20 : ℤ) - jsRound (p / 100 * 20)).toNat '░')) = _
  rw [string_mk_append, harg]

lemma getBar_length {p : ℚ} (h0 : 0 ≤ p) (h1 : p ≤ 100) :
    ∃ str : String, getBar p = some str ∧ str.length = 20 := by
  obtain ⟨heq, hle⟩ := getBar_eval h0 h1
  refine ⟨_, heq, ?_⟩
  rw [string_mk_length, List.length_append, List.length_replicate,
    List.length_replicate]
  omega

lemma getBarGist_eq_getBar (p : ℚ) : getBarGist p = getBar p := by
  have h : p / 100 * 20 = p / 5 := by ring
  simp [getBar, getBarGist, h]

/-! ## Claim theorems -/

/-- C1 (counterexample): the claim fails on the `src/script/update_gist.js`
variant of `getCommitTimes`, one of its two cited code places.  A `PushEvent`
with no `commits` list and `size = 3` contributes 0 to the total there (the
absent list is replaced by `[]` and its length taken, with no fallback to
`size`), not 3 as the claim requires. -/
theorem commitCount_no_fallback_in_simple_variant_cex :
    (getCommitTimesSimple
      [{ type := "PushEvent",
         payload := some { commits := none, size := some 3, distinct_size := none },
         localHour := 9 }]).total = 0 ∧
    ¬ (getCommitTimesSimple
      [{ type := "PushEvent",
         payload := some { commits := none, size := some 3, distinct_size := none },
         localHour := 9 }]).total = 3 := by
  constructor <;> decide

/-- C1 (amended): in the `src/unnamed/part_000` variant of `getCommitTimes`,
the commit contribution count is the length of the payload's commits list
when that list is present and non-empty; otherwise it falls back to the
`size` field, then to `distinct_size`, then to 1 (a missing or zero-valued
field falls through); in particular an event with no commits list but
`size = 3` contributes 3 to the total, not 1.  In the
`src/script/update_gist.js` variant there is no fallback: the count is the
length of the commits list, and 0 when the list is absent. -/
theorem commitCount_fallback_chain :
    (∀ (p : PushPayload) (cs : List Unit), p.commits = some cs → 0 < cs.length →
      commitCountFallback (some p) = cs.length) ∧
    (∀ p : PushPayload, (p.commits = none ∨ p.commits = some []) →
      (∀ n, p.size = some n → 0 < n → commitCountFallback (some p) = n) ∧
      ((p.size = none ∨ p.size = some 0) →
        (∀ m, p.distinct_size = some m → 0 < m → commitCountFallback (some p) = m) ∧
        ((p.distinct_size = none ∨ p.distinct_size = some 0) →
          commitCountFallback (some p) = 1))) ∧
    (getCommitTimesPaged (fun page =>
      if page = 1 then
        [{ type := "PushEvent",
           payload := some { commits := none, size := some 3, distinct_size := none },
           localHour := 9 }]
      else [])).1.total = 3 ∧
    (∀ p : PushPayload, p.commits = none → commitCountSimple (some p) = 0) := by
  refine ⟨?_, ?_, by decide, ?_⟩
  · intro p cs hcs hlen
    simp [commitCountFallback, hcs, hlen]
  · intro p hcs
    have hrep : commitCountFallback (some p) =
        falsyOr p.size (falsyOr p.distinct_size 1) := by
      rcases hcs with h | h <;> simp [commitCountFallback, h]
    refine ⟨?_, ?_⟩
    · intro n hn hpos
      rw [hrep, hn]
      simp [falsyOr]
      omega
    · intro hsz
      have hrep2 : commitCountFallback (some p) = falsyOr p.distinct_size 1 := by
        rcases hsz with h | h <;> simp [hrep, h, falsyOr]
      refine ⟨?_, ?_⟩
      · intro m hm hpos
        rw [hrep2, hm]
        simp [falsyOr]
        omega
      · intro hds
        rcases hds with h | h <;> simp [hrep2, h, falsyOr]
  · intro p hp
    simp [commitCountSimple, hp]

/-- C1 (amended, witness): the fallback chain applied at a payload with no
commits list and `size = 3` yields 3. -/
theorem commitCount_fallback_chain_witness :
    commitCountFallback
      (some { commits := none, size := some 3, distinct_size := none }) = 3 :=
  (commitCount_fallback_chain.2.1
    { commits := none, size := some 3, distinct_size := none }
    (Or.inl rfl)).1 3 rfl (by decide)

/-- C2: the hour-to-bucket classification is total over `[0,24)` (it is a
function) and assigns each hour to exactly one bucket, with `[6,12)` mapped
to morning, `[12,18)` to daytime, `[18,24)` to evening and `[0,6)` to
night. -/
theorem bucketOfHour_partition (h : Nat) (hh : h < 24) :
    (bucketOfHour h = Bucket.morning ↔ 6 ≤ h ∧ h < 12) ∧
    (bucketOfHour h = Bucket.daytime ↔ 12 ≤ h ∧ h < 18) ∧
    (bucketOfHour h = Bucket.evening ↔ 18 ≤ h ∧ h < 24) ∧
    (bucketOfHour h = Bucket.night ↔ h < 6) := by
  interval_cases h <;> refine ⟨?_, ?_, ?_, ?_⟩ <;> decide

/-- C2 (witness): hour 7 classifies as morning. -/
theorem bucketOfHour_partition_witness : bucketOfHour 7 = Bucket.morning :=
  (bucketOfHour_partition 7 (by decide)).1.mpr (by decide)

/-- C3: for every sequence of processed records, each variant of
`getCommitTimes` returns a total equal to the sum of the four bucket
counters. -/
theorem total_eq_bucket_sum (events : List Event) (fetch : Nat → List Event)
    (fetchS : Nat → List SearchItem) :
    (getCommitTimesSimple events).total =
      (getCommitTimesSimple events).morning + (getCommitTimesSimple events).daytime +
      (getCommitTimesSimple events).evening + (getCommitTimesSimple events).night ∧
    (getCommitTimesPaged fetch).1.total =
      (getCommitTimesPaged fetch).1.morning + (getCommitTimesPaged fetch).1.daytime +
      (getCommitTimesPaged fetch).1.evening + (getCommitTimesPaged fetch).1.night ∧
    (getCommitTimesSearch fetchS).1.total =
      (getCommitTimesSearch fetchS).1.morning + (getCommitTimesSearch fetchS).1.daytime +
      (getCommitTimesSearch fetchS).1.evening + (getCommitTimesSearch fetchS).1.night := by
  refine ⟨?_, ?_, rfl⟩
  · exact foldl_processEvent_sumInv commitCountSimple events initStats initStats_sumInv
  · exact pagesLoop_sumInv fetch 3 1 initStats initStats_sumInv


lemma toFixed1_close (x : ℚ) : |toFixed1 x - x| ≤ 1 / 20 := by
  have h := jsRound_close (x * 10)
  rw [abs_le] at h ⊢
  unfold toFixed1
  constructor <;> [linarith [h.1]; linarith [h.2]]

lemma toFixed1_zero : toFixed1 0 = 0 := by
  have h : jsRound (0 : ℚ) = 0 := by norm_num [jsRound]
  simp [toFixed1, h]

lemma getPercent_spec (s : CommitStats) (num : Nat) :
    ∃ p : ℚ, getPercentGist s num = some p ∧ getPercentSearch s num = some p ∧
      (s.total = 0 → p = 0) ∧
      (s.total ≠ 0 → p = toFixed1 ((num : ℚ) / (s.total : ℚ) * 100)) := by
  by_cases h : s.total = 0
  · refine ⟨0, ?_, ?_, fun _ => rfl, fun hc => absurd h hc⟩
    · simp [getPercentGist, h]
    · simp [getPercentSearch, h, toFixed1_zero]
  · refine ⟨toFixed1 ((num : ℚ) / (s.total : ℚ) * 100), ?_, ?_, fun hc => absurd hc h,
      fun _ => rfl⟩
    · simp [getPercentGist, jsDiv, h, Nat.cast_eq_zero]
    · simp [getPercentSearch, jsDiv, h, Nat.cast_eq_zero]

lemma getPercent_bounds {s : CommitStats} {num : Nat} (h : num ≤ s.total) :
    ∃ p : ℚ, getPercentGist s num = some p ∧ getPercentSearch s num = some p ∧
      0 ≤ p ∧ p ≤ 100 := by
  obtain ⟨p, hg, hs, hz, hnz⟩ := getPercent_spec s num
  refine ⟨p, hg, hs, ?_⟩
  by_cases ht : s.total = 0
  · rw [hz ht]; norm_num
  · have htot : (0 : ℚ) < (s.total : ℚ) := by
      exact_mod_cast Nat.pos_of_ne_zero ht
    have hle : (num : ℚ) ≤ (s.total : ℚ) := by exact_mod_cast h
    have hdiv : (num : ℚ) / (s.total : ℚ) ≤ 1 := div_le_one_of_le₀ hle htot.le
    have hdiv0 : 0 ≤ (num : ℚ) / (s.total : ℚ) :=
      div_nonneg (by positivity) htot.le
    rw [hnz ht]
    exact toFixed1_bounds (by linarith) (by linarith)

/-- C4: `getPercent` never faults: in both renderer variants it returns a
defined value, which is 0 when the total is 0 (the division is guarded and
never performed on a zero denominator), and otherwise is
`count / total * 100` rounded to the nearest tenth (an error of at most
`1/20` from the exact ratio). -/
theorem getPercent_total_zero_safe (s : CommitStats) (num : Nat) :
    ∃ p : ℚ, getPercentGist s num = some p ∧ getPercentSearch s num = some p ∧
      (s.total = 0 → p = 0) ∧
      (s.total ≠ 0 →
        p = toFixed1 ((num : ℚ) / (s.total : ℚ) * 100) ∧
        |p - (num : ℚ) / (s.total : ℚ) * 100| ≤ 1 / 20) := by
  obtain ⟨p, hg, hs, hz, hnz⟩ := getPercent_spec s num
  exact ⟨p, hg, hs, hz, fun ht => ⟨hnz ht, by rw [hnz ht]; exact toFixed1_close _⟩⟩

/-- C4 (witness): at the zero-total stats both variants yield percent 0. -/
theorem getPercent_total_zero_safe_witness :
    getPercentGist initStats 0 = some 0 := by
  obtain ⟨p, hg, _, hz, _⟩ := getPercent_total_zero_safe initStats 0
  rw [hg, hz rfl]

/-- C5: for any percent in `[0,100]`, the bar consists of
`filled = Math.round(percent / 100 * 20)` filled glyphs followed by
`20 - filled` background glyphs; its width is exactly 20 cells, it is
all-background at percent 0 and all-filled at percent 100, and the
`percent / 5` form used by the other variants renders identically. -/
theorem getBar_shape (p : ℚ) (h0 : 0 ≤ p) (h1 : p ≤ 100) :
    ∃ str : String, getBar p = some str ∧ getBarGist p = some str ∧
      str = String.mk (List.replicate (jsRound (p / 100 * 20)).toNat '█' ++
        List.replicate (20 - (jsRound (p / 100 * 20)).toNat) '░') ∧
      str.length = 20 ∧
      (p = 0 → str = "░░░░░░░░░░░░░░░░░░░░") ∧
      (p = 100 → str = "████████████████████") := by
  obtain ⟨heq, hle⟩ := getBar_eval h0 h1
  refine ⟨_, heq, by rw [getBarGist_eq_getBar]; exact heq, rfl, ?_, ?_, ?_⟩
  · rw [string_mk_length, List.length_append, List.length_replicate,
      List.length_replicate]
    omega
  · rintro rfl
    have hz : jsRound ((0 : ℚ) / 100 * 20) = 0 := by norm_num [jsRound]
    rw [hz]
    decide
  · rintro rfl
    have hf : jsRound ((100 : ℚ) / 100 * 20) = 20 := by norm_num [jsRound]
    rw [hf]
    decide

/-- C5 (witness): at percent 50 the bar is defined, half filled, and 20
cells wide. -/
theorem getBar_shape_witness :
    ∃ str : String, getBar 50 = some str ∧ str.length = 20 := by
  obtain ⟨str, hbar, _, _, hlen, _, _⟩ := getBar_shape 50 (by norm_num) (by norm_num)
  exact ⟨str, hbar, hlen⟩

/-- C9: under the precondition `num ≤ total` — which every collector output
satisfies for each bucket, since its total is the bucket sum — the percent is
defined and lies in `[0,100]`, the rounded fill count lies in `[0,20]`, both
repeat counts are non-negative (no `RangeError`), and the bar is a defined
string of exactly 20 glyphs. -/
theorem getBar_no_negative_repeat (s : CommitStats) (num : Nat)
    (h : num ≤ s.total) :
    (∃ p str, getPercentGist s num = some p ∧ getPercentSearch s num = some p ∧
      0 ≤ p ∧ p ≤ 100 ∧
      0 ≤ jsRound (p / 100 * 20) ∧ jsRound (p / 100 * 20) ≤ 20 ∧
      ¬ jsRound (p / 100 * 20) < 0 ∧ ¬ (20 : ℤ) - jsRound (p / 100 * 20) < 0 ∧
      getBar p = some str ∧ getBarGist p = some str ∧ str.length = 20) ∧
    (∀ events : List Event,
      (getCommitTimesSimple events).morning ≤ (getCommitTimesSimple events).total ∧
      (getCommitTimesSimple events).daytime ≤ (getCommitTimesSimple events).total ∧
      (getCommitTimesSimple events).evening ≤ (getCommitTimesSimple events).total ∧
      (getCommitTimesSimple events).night ≤ (getCommitTimesSimple events).total) ∧
    (∀ fetch : Nat → List Event,
      (getCommitTimesPaged fetch).1.morning ≤ (getCommitTimesPaged fetch).1.total ∧
      (getCommitTimesPaged fetch).1.daytime ≤ (getCommitTimesPaged fetch).1.total ∧
      (getCommitTimesPaged fetch).1.evening ≤ (getCommitTimesPaged fetch).1.total ∧
      (getCommitTimesPaged fetch).1.night ≤ (getCommitTimesPaged fetch).1.total) ∧
    (∀ fetchS : Nat → List SearchItem,
      (getCommitTimesSearch fetchS).1.morning ≤ (getCommitTimesSearch fetchS).1.total ∧
      (getCommitTimesSearch fetchS).1.daytime ≤ (getCommitTimesSearch fetchS).1.total ∧
      (getCommitTimesSearch fetchS).1.evening ≤ (getCommitTimesSearch fetchS).1.total ∧
      (getCommitTimesSearch fetchS).1.night ≤ (getCommitTimesSearch fetchS).1.total) := by
  refine ⟨?_, ?_, ?_, ?_⟩
  · obtain ⟨p, hg, hsr, hp0, hp100⟩ := getPercent_bounds h
    have hb : (0 : ℤ) ≤ jsRound (p / 100 * 20) ∧ jsRound (p / 100 * 20) ≤ 20 :=
      jsRound_bounds (by push_cast; linarith) (by push_cast; linarith)
    obtain ⟨str, hbar, hlen⟩ := getBar_length hp0 hp100
    exact ⟨p, str, hg, hsr, hp0, hp100, hb.1, hb.2, by omega, by omega, hbar,
      by rw [getBarGist_eq_getBar]; exact hbar, hlen⟩
  · intro events
    have hs := foldl_processEvent_sumInv commitCountSimple events initStats initStats_sumInv
    unfold sumInv at hs
    unfold getCommitTimesSimple
    omega
  · intro fetch
    have hs := pagesLoop_sumInv fetch 3 1 initStats initStats_sumInv
    unfold sumInv at hs
    unfold getCommitTimesPaged
    exact ⟨by omega, by omega, by omega, by omega⟩
  · intro fetchS
    refine ⟨?_, ?_, ?_, ?_⟩ <;> simp [getCommitTimesSearch] <;> omega

/-- C9 (witness): at the concrete stats with morning 2 of total 4 the bar is
defined and 20 cells wide. -/
theorem getBar_no_negative_repeat_witness :
    ∃ p str,
      getPercentGist (CommitStats.mk 2 1 1 0 4) 2 = some p ∧
      getBar p = some str ∧ str.length = 20 := by
  obtain ⟨⟨p, str, hg, _, _, _, _, _, _, _, hbar, _, hlen⟩, _, _, _⟩ :=
    getBar_no_negative_repeat (CommitStats.mk 2 1 1 0 4) 2 (by decide)
  exact ⟨p, str, hg, hbar, hlen⟩

/-- C7: `generateMarkdown` is a pure, deterministic function of the stats and
the generation instant: equal inputs give character-for-character equal
renderings. -/
theorem generateMarkdown_deterministic (s1 s2 : CommitStats) (t1 t2 : String)
    (hs : s1 = s2) (ht : t1 = t2) :
    generateMarkdown s1 t1 = generateMarkdown s2 t2 := by
  rw [hs, ht]

/-- C7 (witness): two renderings of the zero stats at the same instant
coincide. -/
theorem generateMarkdown_deterministic_witness :
    generateMarkdown initStats "2024-01-01 00:00:00" =
      generateMarkdown initStats "2024-01-01 00:00:00" :=
  generateMarkdown_deterministic initStats initStats
    "2024-01-01 00:00:00" "2024-01-01 00:00:00" rfl rfl

/-- C8: both pagination loops terminate after at most their page bound
(3 pages for `src/unnamed/part_000`, 10 for `src/unnamed/part_001`); every
page fetched before the last one was non-empty (respectively held at least
the full `PER_PAGE = 100` records), and whenever the loop stops before its
bound the last page fetched was empty (respectively smaller than
`PER_PAGE`). -/
theorem pagination_terminates (fetch : Nat → List Event)
    (fetchS : Nat → List SearchItem) :
    (getCommitTimesPaged fetch).2 ≤ 3 ∧
    (∀ j, j + 1 < (getCommitTimesPaged fetch).2 → fetch (1 + j) ≠ []) ∧
    ((getCommitTimesPaged fetch).2 < 3 →
      fetch (1 + ((getCommitTimesPaged fetch).2 - 1)) = []) ∧
    (getCommitTimesSearch fetchS).2 ≤ 10 ∧
    (∀ j, j + 1 < (getCommitTimesSearch fetchS).2 →
      100 ≤ (fetchS (1 + j)).length) ∧
    ((getCommitTimesSearch fetchS).2 < 10 →
      (fetchS (1 + ((getCommitTimesSearch fetchS).2 - 1))).length < 100) := by
  refine ⟨pagesLoop_pages_le fetch 3 1 initStats,
    fun j hj => pagesLoop_full_before fetch 3 1 initStats j hj,
    fun hlt => pagesLoop_stops_at_empty fetch 3 1 initStats hlt,
    searchLoop_pages_le fetchS 10 1 ⟨0, 0, 0, 0⟩,
    fun j hj => searchLoop_full_before fetchS 10 1 ⟨0, 0, 0, 0⟩ j hj,
    fun hlt => searchLoop_stops_at_short fetchS 10 1 ⟨0, 0, 0, 0⟩ hlt⟩

/-- C8 (witness): on an empty stream both collectors stop after fetching
exactly the first page. -/
theorem pagination_terminates_witness :
    (getCommitTimesPaged fun _ => []).2 ≤ 3 ∧
    (getCommitTimesSearch fun _ => []).2 ≤ 10 :=
  ⟨(pagination_terminates (fun _ => []) fun _ => []).1,
    (pagination_terminates (fun _ => []) fun _ => []).2.2.2.1⟩

lemma repr_digit_length {d : Nat} (h : d < 10) : (Nat.repr d).length = 1 := by
  interval_cases d <;> rfl

/-- C10: zero-percent formatting differs between the variants: with a zero
total the `update_gist.js` / `part_000` `getPercent` yields the bare number
`0` (rendered `"0"`, no decimal place) while the first `part_001` variant
yields `"0.0"`; with a nonzero total both render the same string carrying
exactly one decimal digit. -/
theorem zero_percent_formatting (s : CommitStats) (num : Nat) :
    (s.total = 0 →
      getPercentStrGist s num = "0" ∧ getPercentStrSearch s num = "0.0") ∧
    (s.total ≠ 0 → ∃ w d : Nat, d < 10 ∧
      getPercentStrGist s num = Nat.repr w ++ "." ++ Nat.repr d ∧
      getPercentStrSearch s num = Nat.repr w ++ "." ++ Nat.repr d ∧
      (Nat.repr d).length = 1) := by
  constructor
  · intro ht
    have h0 : jsRound ((0 : ℚ) * 10) = 0 := by norm_num [jsRound]
    constructor
    · simp [getPercentStrGist, ht]
    · simp only [getPercentStrSearch, ht, if_pos, toFixed1Str, h0]
      decide
  · intro ht
    refine ⟨(jsRound ((num : ℚ) / (s.total : ℚ) * 100 * 10)).toNat / 10,
      (jsRound ((num : ℚ) / (s.total : ℚ) * 100 * 10)).toNat % 10,
      Nat.mod_lt _ (by omega), ?_, ?_, repr_digit_length (Nat.mod_lt _ (by omega))⟩
    · simp [getPercentStrGist, ht, toFixed1Str]
    · simp [getPercentStrSearch, ht, toFixed1Str]

/-- C10 (witness): at the zero-total stats the two formats differ as
stated. -/
theorem zero_percent_formatting_witness :
    getPercentStrGist initStats 0 = "0" ∧
    getPercentStrSearch initStats 0 = "0.0" :=
  (zero_percent_formatting initStats 0).1 rfl

set_option maxRecDepth 4000 in
/-- C6: on stats `{morning 2, daytime 1, evening 1, night 0, total 4}` the
renderer produces percentages 50.0 / 25.0 / 25.0 / 0.0, fill counts
10 / 5 / 5 / 0 of the 20-cell bars, and exactly the expected four-line text
for any generation timestamp. -/
theorem example_stats_rendering :
    getPercentSearch (CommitStats.mk 2 1 1 0 4) 2 = some 50 ∧
    getPercentSearch (CommitStats.mk 2 1 1 0 4) 1 = some 25 ∧
    getPercentSearch (CommitStats.mk 2 1 1 0 4) 0 = some 0 ∧
    getPercentStrGist (CommitStats.mk 2 1 1 0 4) 2 = "50.0" ∧
    getPercentStrGist (CommitStats.mk 2 1 1 0 4) 1 = "25.0" ∧
    getPercentStrGist (CommitStats.mk 2 1 1 0 4) 0 = "0.0" ∧
    jsRound ((50 : ℚ) / 100 * 20) = 10 ∧
    jsRound ((25 : ℚ) / 100 * 20) = 5 ∧
    jsRound ((0 : ℚ) / 100 * 20) = 0 ∧
    ∀ t : String, generateMarkdown (CommitStats.mk 2 1 1 0 4) t =
      some ("🌞 Morning     2 commits   ██████████░░░░░░░░░░\n🏙️ Daytime     1 commits   █████░░░░░░░░░░░░░░░\n🌆 Evening     1 commits   █████░░░░░░░░░░░░░░░\n🌙 Night       0 commits   ░░░░░░░░░░░░░░░░░░░░\n> Last Updated: " ++ t ++ "\n") := by
  have hp2 : getPercentSearch (CommitStats.mk 2 1 1 0 4) 2 = some 50 := by
    norm_num [getPercentSearch, jsDiv, toFixed1, jsRound]
  have hp1 : getPercentSearch (CommitStats.mk 2 1 1 0 4) 1 = some 25 := by
    norm_num [getPercentSearch, jsDiv, toFixed1, jsRound]
  have hp0 : getPercentSearch (CommitStats.mk 2 1 1 0 4) 0 = some 0 := by
    norm_num [getPercentSearch, jsDiv, toFixed1, jsRound]
  have hg2 : getPercentStrGist (CommitStats.mk 2 1 1 0 4) 2 = "50.0" := by
    have h : jsRound (((2 : ℕ) : ℚ) / ((4 : ℕ) : ℚ) * 100 * 10) = 500 := by
      norm_num [jsRound]
    simp only [getPercentStrGist, toFixed1Str, h]
    decide
  have hg1 : getPercentStrGist (CommitStats.mk 2 1 1 0 4) 1 = "25.0" := by
    have h : jsRound (((1 : ℕ) : ℚ) / ((4 : ℕ) : ℚ) * 100 * 10) = 250 := by
      norm_num [jsRound]
    simp only [getPercentStrGist, toFixed1Str, h]
    decide
  have hg0 : getPercentStrGist (CommitStats.mk 2 1 1 0 4) 0 = "0.0" := by
    have h : jsRound (((0 : ℕ) : ℚ) / ((4 : ℕ) : ℚ) * 100 * 10) = 0 := by
      norm_num [jsRound]
    simp only [getPercentStrGist, toFixed1Str, h]
    decide
  have hr50 : jsRound ((50 : ℚ) / 100 * 20) = 10 := by norm_num [jsRound]
  have hr25 : jsRound ((25 : ℚ) / 100 * 20) = 5 := by norm_num [jsRound]
  have hr0 : jsRound ((0 : ℚ) / 100 * 20) = 0 := by norm_num [jsRound]
  have hb50 : getBar 50 = some "██████████░░░░░░░░░░" := by
    simp only [getBar, hr50]; decide
  have hb25 : getBar 25 = some "█████░░░░░░░░░░░░░░░" := by
    simp only [getBar, hr25]; decide
  have hb0 : getBar 0 = some "░░░░░░░░░░░░░░░░░░░░" := by
    simp only [getBar, hr0]; decide
  have hl1 : renderLine (CommitStats.mk 2 1 1 0 4) "🌞" "Morning" 2 =
      some "🌞 Morning     2 commits   ██████████░░░░░░░░░░" := by
    simp only [renderLine, hp2, Option.some_bind, hb50, Option.map_some']; decide
  have hl2 : renderLine (CommitStats.mk 2 1 1 0 4) "🏙️" "Daytime" 1 =
      some "🏙️ Daytime     1 commits   █████░░░░░░░░░░░░░░░" := by
    simp only [renderLine, hp1, Option.some_bind, hb25, Option.map_some']; decide
  have hl3 : renderLine (CommitStats.mk 2 1 1 0 4) "🌆" "Evening" 1 =
      some "🌆 Evening     1 commits   █████░░░░░░░░░░░░░░░" := by
    simp only [renderLine, hp1, Option.some_bind, hb25, Option.map_some']; decide
  have hl4 : renderLine (CommitStats.mk 2 1 1 0 4) "🌙" "Night" 0 =
      some "🌙 Night       0 commits   ░░░░░░░░░░░░░░░░░░░░" := by
    simp only [renderLine, hp0, Option.some_bind, hb0, Option.map_some']; decide
  refine ⟨hp2, hp1, hp0, hg2, hg1, hg0, hr50, hr25, hr0, ?_⟩
  intro t
  simp only [generateMarkdown, hl1, hl2, hl3, hl4, Option.some_bind, Option.map_some']
  have hjoin : String.intercalate "\n"
      ["🌞 Morning     2 commits   ██████████░░░░░░░░░░",
       "🏙️ Daytime     1 commits   █████░░░░░░░░░░░░░░░",
       "🌆 Evening     1 commits   █████░░░░░░░░░░░░░░░",
       "🌙 Night       0 commits   ░░░░░░░░░░░░░░░░░░░░"] ++ "\n> Last Updated: " =
      "🌞 Morning     2 commits   ██████████░░░░░░░░░░\n🏙️ Daytime     1 commits   █████░░░░░░░░░░░░░░░\n🌆 Evening     1 commits   █████░░░░░░░░░░░░░░░\n🌙 Night       0 commits   ░░░░░░░░░░░░░░░░░░░░\n> Last Updated: " := by
    decide
  rw [← hjoin]
